import Mathlib

/-!
Shallow embedding of the email-module repository (sequence scheduling,
send gating, suppression list, reply processing) and proofs of the
spec claims about it.

Conventions of the embedding:
* Python `datetime` values are modelled as `Nat` seconds since the epoch
  (the code only uses naive UTC datetimes); `dt.replace(hour=h, minute=m,
  second=0, microsecond=0)` becomes "floor to the day, then add h:m:00".
* SQLAlchemy tables are lists of records inside a `DB` structure; a
  `.filter(...).first()` is `List.find?`, `.count()` is `List.countP`,
  a commit of a mutated row is a map over the list keyed by primary key.
* Nullable columns are `Option`; Python truthiness of a string column
  (`if not lead.email`) treats both `None` and `""` as falsy.
* External collaborators (LLM content generation, SMTP transport, uuid4,
  random draws, settings) are passed in as explicit oracle arguments.
* Python exceptions are `Except String`.
-/

namespace EmailModule

/-! ### String helpers: Python `str.strip`, `str.lower`, `in`, slicing -/

/-- Python whitespace characters recognised by `str.strip()` (ASCII set),
compared by code point. -/
def isSpaceChar (c : Char) : Bool :=
  c.toNat == 32 || c.toNat == 9 || c.toNat == 10 || c.toNat == 13 ||
    c.toNat == 11 || c.toNat == 12

/-- ASCII lowercasing of one character, as Python `str.lower` acts on the
ASCII range (`A`-`Z` have code points 65-90, `a`-`z` are 32 above). -/
def lowerChar (c : Char) : Char :=
  if 65 ≤ c.toNat && c.toNat ≤ 90 then Char.ofNat (c.toNat + 32) else c

/-- Python `s.strip()`: whitespace removed from both ends. -/
def pyStrip (s : String) : String :=
  String.mk (List.rdropWhile isSpaceChar (s.data.dropWhile isSpaceChar))

/-- Python `s.lower()` (ASCII fragment). -/
def pyLower (s : String) : String :=
  String.mk (s.data.map lowerChar)

/-- `email.strip().lower()` — the normalization used by the suppression code. -/
def normSL (s : String) : String := pyLower (pyStrip s)

/-- `email.lower().strip()` — the normalization used by the reply endpoint. -/
def normLS (s : String) : String := pyStrip (pyLower s)

/-- Does `needle` occur at the head of `hay`? -/
def startsWithL : List Char → List Char → Bool
  | [], _ => true
  | _ :: _, [] => false
  | a :: as, b :: bs => a == b && startsWithL as bs

/-- Does `needle` occur anywhere in `hay`? (Python `needle in hay` on str.) -/
def hasSubL (needle : List Char) : List Char → Bool
  | [] => startsWithL needle []
  | c :: t => startsWithL needle (c :: t) || hasSubL needle t

/-- Python `needle in hay` for strings. -/
def pyContains (hay needle : String) : Bool :=
  hasSubL needle.data hay.data

/-- Python `s[:n]`. -/
def pyTake (n : Nat) (s : String) : String :=
  String.mk (s.data.take n)

/-! ### Time (`datetime.utcnow()` as seconds since the epoch) -/

/-- Seconds in a day. -/
def daySecs : Nat := 86400

/-- `dt.replace(hour=0, minute=0, second=0, microsecond=0)`: floor to day. -/
def dayFloor (t : Nat) : Nat := (t / daySecs) * daySecs

/-- `(now + timedelta(days=d)).replace(hour=h, minute=m, second=0,
microsecond=0)` — the scheduled-at computation of
`enqueue_campaign_sequence`. -/
def schedFor (now d h m : Nat) : Nat :=
  dayFloor (now + d * daySecs) + h * 3600 + m * 60

/-! ### Data model (database/models.py) -/

/-- `EmailStatus` enum. -/
inductive EmailStatus where
  | pending | sent | replied | bounced | unsubscribed | failed
  deriving DecidableEq, Repr

/-- `ReplyCategory` enum. -/
inductive ReplyCategory where
  | interested | question | objection | ooo | unsubscribe | negative | unknown
  deriving DecidableEq, Repr

/-- `leads` table row (fields used by the claimed code paths). -/
structure Lead where
  id : String
  email : Option String
  first_name : Option String := none
  business_name : Option String := none
  deriving DecidableEq, Repr

/-- `email_records` table row (the spec's EmailSend). -/
structure EmailRecord where
  id : String
  campaign_id : String
  lead_id : String
  sequence_step : Nat
  sender_email : Option String := none
  subject : Option String := none
  body : Option String := none
  status : EmailStatus
  message_id : Option String := none
  scheduled_at : Option Nat := none
  sent_at : Option Nat := none
  notes : Option String := none
  deriving DecidableEq, Repr

/-- `replies` table row. -/
structure Reply where
  id : String
  email_id : Option String
  lead_id : String
  raw_content : String
  category : ReplyCategory
  llm_response_draft : Option String := none
  approved : Bool := false
  sent : Bool := false
  received_at : Nat
  responded_at : Option Nat := none
  deriving DecidableEq, Repr

/-- `suppressions` table row. -/
structure Suppression where
  id : String
  email_address : String
  reason : String
  created_at : Nat
  deriving DecidableEq, Repr

/-- The record store: one list per table. -/
structure DB where
  leads : List Lead
  records : List EmailRecord
  replies : List Reply
  suppressions : List Suppression
  deriving DecidableEq, Repr

/-- Resolve `record.lead` (relationship by `lead_id`). -/
def findLead (db : DB) (leadId : String) : Option Lead :=
  db.leads.find? (fun l => l.id == leadId)

/-- `db.query(Lead).filter(Lead.email == addr).first()` — verbatim string
equality against the stored column. -/
def findLeadByEmail (db : DB) (addr : String) : Option Lead :=
  db.leads.find? (fun l => l.email == some addr)

/-! ### services/suppression.py -/

/-- `is_suppressed(email, db)`. -/
def is_suppressed (email : String) (db : DB) : Bool :=
  (db.suppressions.find? (fun s => s.email_address == normSL email)).isSome

/-- `add_suppression(email, reason, db)`: normalizes, inserts only when not
already present. `newId`/`now` stand for `uuid4()` and `utcnow()`. -/
def add_suppression (email reason : String) (newId : String) (now : Nat)
    (db : DB) : DB :=
  let e := normSL email
  if is_suppressed e db then db
  else { db with suppressions :=
          db.suppressions ++ [⟨newId, e, reason, now⟩] }

/-- `db_add_suppression(email, reason)` (database/db.py): same writes, but
returns `none` as the explicit "already suppressed" no-op signal and the
inserted row otherwise. -/
def db_add_suppression (email reason : String) (newId : String) (now : Nat)
    (db : DB) : Option Suppression × DB :=
  let e := normSL email
  if is_suppressed e db then (none, db)
  else
    let row : Suppression := ⟨newId, e, reason, now⟩
    (some row, { db with suppressions := db.suppressions ++ [row] })

/-! ### services/sequence_engine.py -/

/-- `SEQUENCE_DELAYS`: per-step `(step, (min_days, max_days))`, in the
iteration order of the Python dict. -/
def SEQUENCE_DELAYS : List (Nat × Nat × Nat) :=
  [(1, 0, 0), (2, 3, 5), (3, 7, 9), (4, 12, 15), (5, 18, 21)]

/-- One loop iteration of the inner `for step ... in SEQUENCE_DELAYS` loop:
the fresh `EmailRecord` for `(lead, step)`. `d`, `h`, `m` are the three
`random.randint` draws for this row and `rid` the fresh uuid. -/
def mkSeqRecord (cid lid : String) (step : Nat) (now d h m : Nat)
    (rid : String) : EmailRecord :=
  { id := rid
    campaign_id := cid
    lead_id := lid
    sequence_step := step
    status := .pending
    scheduled_at := some (schedFor now d h m) }

/-- The five rows created for one eligible lead. `draws lid step` supplies
the `(delay_days, send_hour, send_minute)` random draws and `ids lid step`
the fresh uuid. -/
def stepRows (cid lid : String) (now : Nat)
    (draws : String → Nat → Nat × Nat × Nat)
    (ids : String → Nat → String) : List EmailRecord :=
  SEQUENCE_DELAYS.map (fun w =>
    let t := draws lid w.1
    mkSeqRecord cid lid w.1 now t.1 t.2.1 t.2.2 (ids lid w.1))

/-- The per-lead filtering of `enqueue_campaign_sequence`: skip if the lead
is missing, has no email (Python-falsy: `None` or `""`), or is suppressed. -/
def leadEligible (db : DB) (lid : String) : Bool :=
  match findLead db lid with
  | none => false
  | some lead =>
    match lead.email with
    | none => false
    | some e => !(e == "") && !(is_suppressed e db)

/-- The `for lead_id in lead_ids` loop of `enqueue_campaign_sequence`,
threading the session state and the `queued`/`skipped` counters. -/
def enqueueGo (cid : String) (now : Nat)
    (draws : String → Nat → Nat × Nat × Nat) (ids : String → Nat → String) :
    List String → DB → Nat → Nat → DB × Nat × Nat
  | [], db, q, s => (db, q, s)
  | lid :: rest, db, q, s =>
    if leadEligible db lid then
      let rows := stepRows cid lid now draws ids
      enqueueGo cid now draws ids rest
        { db with records := db.records ++ rows } (q + rows.length) s
    else
      enqueueGo cid now draws ids rest db q (s + 1)

/-- `enqueue_campaign_sequence(campaign_id, lead_ids)`. The code calls
`datetime.utcnow()` afresh for each row; the generation time `now` is held
fixed here. Returns the post-commit state and `(queued, skipped)`. -/
def enqueue_campaign_sequence (cid : String) (leadIds : List String)
    (now : Nat) (draws : String → Nat → Nat × Nat × Nat)
    (ids : String → Nat → String) (db : DB) : DB × Nat × Nat :=
  enqueueGo cid now draws ids leadIds db 0 0

/-- The rows a run of `enqueue_campaign_sequence` appends: five step rows
for every eligible entry of `lead_ids`, in order. -/
def enqueueRows (cid : String) (leadIds : List String) (now : Nat)
    (draws : String → Nat → Nat × Nat × Nat)
    (ids : String → Nat → String) (db : DB) : List EmailRecord :=
  (leadIds.filter (leadEligible db)).flatMap
    (fun lid => stepRows cid lid now draws ids)

/-- `should_send_email(record, db)`. `record.lead` resolution happens via
the `lead_id` foreign key; a missing lead or a `None` email makes the
Python code raise (`.email` / `.strip()` on `None`), modelled as
`.error`. -/
def should_send_email (record : EmailRecord) (db : DB) :
    Except String (Bool × Option String) :=
  match findLead db record.lead_id with
  | none => .error "AttributeError: record.lead is None"
  | some lead =>
    match lead.email with
    | none => .error "AttributeError: lead.email is None"
    | some e =>
      if is_suppressed e db then .ok (false, some "suppressed")
      else if (db.records.find? (fun r =>
          r.lead_id == record.lead_id &&
          r.campaign_id == record.campaign_id &&
          r.status == EmailStatus.replied)).isSome then
        .ok (false, some "lead_already_replied")
      else if record.sequence_step > 1 then
        match db.records.find? (fun r =>
            r.lead_id == record.lead_id &&
            r.campaign_id == record.campaign_id &&
            r.sequence_step == record.sequence_step - 1) with
        | some prev =>
          if prev.status == EmailStatus.bounced then
            .ok (false, some "previous_step_bounced")
          else .ok (true, none)
        | none => .ok (true, none)
      else .ok (true, none)

/-! ### workers/send_tasks.py -/

/-- Commit a mutation of the row with primary key `rid`. -/
def updateRecord (db : DB) (rid : String) (f : EmailRecord → EmailRecord) :
    DB :=
  { db with records := db.records.map (fun r => if r.id == rid then f r else r) }

/-- `record.status = FAILED; record.notes = note; db.commit()`. -/
def markFailed (db : DB) (rid : String) (note : String) : DB :=
  updateRecord db rid (fun r =>
    { r with status := .failed, notes := some note })

/-- The prior-step subject lines collected for the content generator:
`subject != None` in the query, then Python truthiness (`if r.subject`)
drops empty strings. -/
def prevSubjects (db : DB) (record : EmailRecord) : List String :=
  ((db.records.filter (fun r =>
      r.lead_id == record.lead_id &&
      r.campaign_id == record.campaign_id &&
      decide (r.sequence_step < record.sequence_step) &&
      r.subject.isSome)).filterMap (fun r => r.subject)).filter
    (fun s => !(s == ""))

/-- External collaborators of the dispatcher: the LLM content generator
(may raise), the SMTP transport (may raise; returns the message-id), and
the configured sender address. -/
structure SendOracle where
  content : EmailRecord → List String → Except String (String × String)
  transport : EmailRecord → Except String String
  senderEmail : String

/-- The body of the dispatcher loop for one due record: the
`no_lead_email` pre-check, the Send Gate, content generation, transport
send, and the success write; any exception is caught and recorded as
`failed` with the truncated message. -/
def processOne (oracle : SendOracle) (t : Nat) (db : DB)
    (record : EmailRecord) : DB :=
  match findLead db record.lead_id with
  | none => markFailed db record.id "no_lead_email"
  | some lead =>
    match lead.email with
    | none => markFailed db record.id "no_lead_email"
    | some e =>
      if e == "" then markFailed db record.id "no_lead_email"
      else
        match should_send_email record db with
        | .error msg => markFailed db record.id (pyTake 250 msg)
        | .ok (false, reason) => markFailed db record.id (reason.getD "")
        | .ok (true, _) =>
          match oracle.content record (prevSubjects db record) with
          | .error msg => markFailed db record.id (pyTake 250 msg)
          | .ok content =>
            match oracle.transport record with
            | .error msg => markFailed db record.id (pyTake 250 msg)
            | .ok mid =>
              updateRecord db record.id (fun r =>
                { r with
                  subject := some content.1
                  body := some content.2
                  sender_email := some oracle.senderEmail
                  status := .sent
                  sent_at := some t
                  message_id := some mid })

/-- `today_sent`: EmailSends with `sent_at >= today_start` (a `NULL`
`sent_at` never satisfies the SQL comparison) and status in
`{SENT, REPLIED}`. -/
def emailsSentToday (db : DB) (t : Nat) : Nat :=
  db.records.countP (fun r =>
    (match r.sent_at with
     | some s => decide (dayFloor t ≤ s)
     | none => false) &&
    (r.status == EmailStatus.sent || r.status == EmailStatus.replied))

/-- The due query: `status == PENDING`, `scheduled_at <= now + 5 minutes`,
`limit(n)`. -/
def duePending (db : DB) (t : Nat) (n : Nat) : List EmailRecord :=
  (db.records.filter (fun r =>
    r.status == EmailStatus.pending &&
    (match r.scheduled_at with
     | some s => decide (s ≤ t + 300)
     | none => false))).take n

/-- `process_pending_emails()` with `limit = settings.daily_send_limit`:
computes `remaining`, no-ops when it is non-positive, otherwise processes
the due batch sequentially. The returned status string and the inter-send
sleeps are elided; `sent_at` uses the invocation time `t`. -/
def process_pending_emails (limit : Int) (oracle : SendOracle) (t : Nat)
    (db : DB) : DB :=
  let remaining : Int := limit - (emailsSentToday db t : Int)
  if remaining ≤ 0 then db
  else (duePending db t remaining.toNat).foldl (processOne oracle t) db

/-- The dispatcher's lead/email pre-check, as an observable: the email the
loop body will hand to the gate, `none` when it marks the record `failed`
with `no_lead_email` (missing lead, `NULL` email, or empty email — all
Python-falsy). -/
def resolvedEmail (db : DB) (record : EmailRecord) : Option String :=
  match findLead db record.lead_id with
  | none => none
  | some lead =>
    match lead.email with
    | none => none
    | some e => if e == "" then none else some e

/-- `record.lead` then `.email` exactly as `should_send_email` accesses
them; `none` means that access raises in Python. -/
def rawLeadEmail (db : DB) (record : EmailRecord) : Option String :=
  match findLead db record.lead_id with
  | none => none
  | some lead => lead.email

/-- Gate check condition: some EmailSend of this (lead, campaign) pair has
status `replied`. -/
def leadReplied (db : DB) (record : EmailRecord) : Bool :=
  (db.records.find? (fun r =>
    r.lead_id == record.lead_id &&
    r.campaign_id == record.campaign_id &&
    r.status == EmailStatus.replied)).isSome

/-- Gate check condition: `sequence_step > 1` and the stored
step-minus-one EmailSend of the pair is `bounced`. -/
def prevStepBounced (db : DB) (record : EmailRecord) : Bool :=
  decide (record.sequence_step > 1) &&
    (match db.records.find? (fun r =>
        r.lead_id == record.lead_id &&
        r.campaign_id == record.campaign_id &&
        r.sequence_step == record.sequence_step - 1) with
     | some prev => prev.status == EmailStatus.bounced
     | none => false)

/-! ### routers/replies.py — Reply Processor -/

/-- The fixed unsubscribe-intent phrase list of `process_reply`. -/
def unsubscribe_keywords : List String :=
  ["unsubscribe", "remove me", "stop emailing",
   "take me off", "opt out", "don\x27t email", "please remove"]

/-- `any(kw in text_body.lower() for kw in unsubscribe_keywords)`. -/
def hasUnsubscribeKeyword (text_body : String) : Bool :=
  unsubscribe_keywords.any (fun kw => pyContains (pyLower text_body) kw)

/-- The fallback threading query: most recently sent EmailSend to this
lead (`order_by(sent_at.desc()).first()`); tie and `NULL` ordering are
backend-specific, modelled as a max-by fold with `NULL` lowest. -/
def mostRecentSent (db : DB) (leadId : String) : Option EmailRecord :=
  (db.records.filter (fun r =>
    r.lead_id == leadId && r.status == EmailStatus.sent)).foldl
    (fun acc r =>
      match acc with
      | none => some r
      | some b => if b.sent_at.getD 0 < r.sent_at.getD 0 then some r else some b)
    none

/-- Settings consumed by the Reply Processor. -/
structure ReplyConfig where
  auto_reply_enabled : Bool

/-- External collaborators of `process_reply`: the LLM classifier and
drafter, plus the fresh uuids for the Reply and Suppression rows. -/
structure ReplyOracle where
  classify : String → ReplyCategory
  draft : Option String → String → ReplyCategory → String
  replyId : String
  suppId : String

/-- Is `category` in the actionable set `{interested, question,
objection}`? -/
def actionableCategory (c : ReplyCategory) : Bool :=
  c == ReplyCategory.interested || c == ReplyCategory.question ||
    c == ReplyCategory.objection

/-- `process_reply(from_email, text_body, in_reply_to)`: resolve the lead
by address (verbatim match against the stored column), handle unsubscribe
intent, resolve the originating EmailSend (message-id first, then most
recent sent), classify, persist the Reply, mark the originating record
`replied`, and draft/approve for actionable categories. The delayed
auto-send dispatch is external and elided. -/
def process_reply (cfg : ReplyConfig) (oracle : ReplyOracle) (t : Nat)
    (from_email text_body in_reply_to : String) (db : DB) : DB :=
  match findLeadByEmail db from_email with
  | none => db
  | some lead =>
    if hasUnsubscribeKeyword text_body then
      add_suppression from_email "unsubscribe_reply" oracle.suppId t db
    else
      let viaMid : Option EmailRecord :=
        if in_reply_to == "" then none
        else db.records.find? (fun r => r.message_id == some in_reply_to)
      let email_record : Option EmailRecord :=
        match viaMid with
        | some r => some r
        | none => mostRecentSent db lead.id
      let category := oracle.classify text_body
      let original_body : Option String :=
        match email_record with
        | some r => r.body
        | none => some ""
      let draft : Option String :=
        if actionableCategory category then
          some (oracle.draft original_body text_body category)
        else none
      let newReply : Reply :=
        { id := oracle.replyId
          email_id := email_record.map (fun r => r.id)
          lead_id := lead.id
          raw_content := pyTake 5000 text_body
          category := category
          llm_response_draft := draft
          approved := actionableCategory category && cfg.auto_reply_enabled
          sent := false
          received_at := t }
      { db with
        records :=
          match email_record with
          | some er =>
            db.records.map (fun r =>
              if r.id == er.id then { r with status := .replied } else r)
          | none => db.records
        replies := db.replies ++ [newReply] }

/-- The address normalization of the `/simulate-reply` endpoint composed
with `process_reply`'s lead lookup: the incoming side is
`.lower().strip()`-normalized, the stored side is compared verbatim. -/
def resolveReplyLead (db : DB) (raw : String) : Option Lead :=
  findLeadByEmail db (normLS raw)

/-! ### workers/reply_tasks.py — Reply Sender -/

/-- `send_single_reply(reply_id)`: no-ops when the Reply is missing,
already sent, or has no draft (Python-falsy); a missing lead raises
(`lead.email` on `None`) and is caught by the generic handler; a transport
failure is caught, logged and returned as an error string with no state
change; on success `sent` and `responded_at` are committed. `transport`
models the `send_reply_email` call (`.error` = raised). -/
def send_single_reply (db : DB) (replyId : String) (t : Nat)
    (transport : Except String Unit) : DB × String :=
  match db.replies.find? (fun x => x.id == replyId) with
  | none => (db, "Reply not found")
  | some reply =>
    if reply.sent then (db, "Reply already sent")
    else if (match reply.llm_response_draft with
             | none => true
             | some d => d == "") then (db, "Reply has no draft to send")
    else
      match findLead db reply.lead_id with
      | none => (db, "Failed: AttributeError")
      | some lead =>
        match transport with
        | .error msg => (db, "Failed: " ++ msg)
        | .ok _ =>
          ({ db with replies := db.replies.map (fun x =>
              if x.id == replyId then
                { x with sent := true, responded_at := some t }
              else x) },
           "Reply sent to " ++ (lead.email.getD ""))

/-! ### Concrete fixtures used by witnesses and counterexamples -/

/-- An empty store. -/
def emptyDB : DB := ⟨[], [], [], []⟩

/-- A lead stored with mixed-case email, as `create_lead` stores it. -/
def leadJ : Lead := { id := "L1", email := some "John@Example.com" }

/-- Store holding only `leadJ`. -/
def dbJ : DB := { leads := [leadJ], records := [], replies := [], suppressions := [] }

/-- A lead stored with an already-normalized email. -/
def leadX : Lead := { id := "L2", email := some "x@y.com" }

/-- Store holding only `leadX`. -/
def dbX : DB := { leads := [leadX], records := [], replies := [], suppressions := [] }

/-- A lead reachable by verbatim address match. -/
def leadU : Lead := { id := "LU", email := some "u@x.com" }

/-- Store holding only `leadU`. -/
def dbU : DB := { leads := [leadU], records := [], replies := [], suppressions := [] }

/-- A sent EmailSend with a known transport message-id. -/
def recT : EmailRecord :=
  { id := "E1", campaign_id := "C1", lead_id := "LU", sequence_step := 1,
    status := .sent, message_id := some "mid-1", sent_at := some 100,
    body := some "original body" }

/-- Store holding `leadU` and `recT`. -/
def dbT : DB := { leads := [leadU], records := [recT], replies := [], suppressions := [] }

/-- Trivial external collaborators for Reply-Processor witnesses. -/
def oracleW : ReplyOracle :=
  { classify := fun _ => .interested, draft := fun _ _ _ => "drafted",
    replyId := "RID", suppId := "SID" }

/-- Auto-reply disabled. -/
def cfgW : ReplyConfig := { auto_reply_enabled := false }

/-- An approved, unsent Reply with a draft, for the Reply-Sender witness. -/
def replyS : Reply :=
  { id := "R1", email_id := none, lead_id := "LU", raw_content := "hi",
    category := .interested, llm_response_draft := some "the draft",
    approved := true, sent := false, received_at := 0 }

/-- Store holding `leadU` and `replyS`. -/
def dbS : DB := { leads := [leadU], records := [], replies := [replyS], suppressions := [] }

/-- A pending step-1 EmailSend for `leadU`. -/
def recC1 : EmailRecord :=
  { id := "E2", campaign_id := "C1", lead_id := "LU", sequence_step := 1,
    status := .pending, scheduled_at := some 0 }

/-- Store where `leadU` is suppressed and `recC1` is due. -/
def dbC1 : DB :=
  { leads := [leadU], records := [recC1], replies := [],
    suppressions := [⟨"S1", "u@x.com", "manual", 0⟩] }

/-- A pending EmailSend whose `lead_id` matches no lead. -/
def recC10 : EmailRecord :=
  { id := "E3", campaign_id := "C1", lead_id := "NOPE", sequence_step := 1,
    status := .pending, scheduled_at := some 0 }

/-- Always-succeeding external collaborators for dispatcher witnesses. -/
def oracleS : SendOracle :=
  { content := fun _ _ => .ok ("subject", "body"),
    transport := fun _ => .ok "new-mid",
    senderEmail := "sender@x.com" }

/-- Fixed random draws, each inside the legal `randint` ranges of the
scheduler (delay at the window minimum, send time 9:00). -/
def drawsFix : String → Nat → Nat × Nat × Nat := fun _ step =>
  match step with
  | 1 => (0, 9, 0)
  | 2 => (3, 9, 0)
  | 3 => (7, 9, 0)
  | 4 => (12, 9, 0)
  | _ => (18, 9, 0)

/-- Deterministic uuids for scheduler witnesses. -/
def idsFix : String → Nat → String := fun lid step => lid ++ "-" ++ toString step

/-- The step-1 row `enqueue_campaign_sequence` creates for `leadU` at
launch time 15:30 (55800 s) under `drawsFix`. -/
def rW1 : EmailRecord := mkSeqRecord "C" "LU" 1 55800 0 9 0 "LU-1"

/-- The step-1 row created at launch time 0 under `drawsFix`. -/
def rowW : EmailRecord := mkSeqRecord "C" "LU" 1 0 0 9 0 "LU-1"

/-! ## Normalization lemmas -/

theorem char_toNat_inj {c d : Char} (h : c.toNat = d.toNat) : c = d := by
  apply Char.ext
  exact UInt32.toNat.inj h

theorem toNat_ofNat_valid {n : Nat} (h : n < 55296) :
    (Char.ofNat n).toNat = n := by
  rw [Char.ofNat, dif_pos (Or.inl h)]
  rfl

theorem toNat_lowerChar (c : Char) :
    (lowerChar c).toNat =
      if 65 ≤ c.toNat ∧ c.toNat ≤ 90 then c.toNat + 32 else c.toNat := by
  unfold lowerChar
  by_cases h : 65 ≤ c.toNat ∧ c.toNat ≤ 90
  · rw [if_pos (by simp [h.1, h.2]), if_pos h, toNat_ofNat_valid (by omega)]
  · rw [if_neg (by simpa using fun h1 h2 => h ⟨h1, h2⟩), if_neg h]

theorem isSpace_lowerChar (c : Char) :
    isSpaceChar (lowerChar c) = isSpaceChar c := by
  rw [Bool.eq_iff_iff]
  simp only [isSpaceChar, Bool.or_eq_true, beq_iff_eq, toNat_lowerChar]
  split <;> omega

theorem lowerChar_idem (c : Char) : lowerChar (lowerChar c) = lowerChar c := by
  apply char_toNat_inj
  rw [toNat_lowerChar, toNat_lowerChar]
  split_ifs <;> omega

/-- The two-sided strip on raw character lists. -/
theorem stripCore_idem (l : List Char) :
    List.rdropWhile isSpaceChar
        ((List.rdropWhile isSpaceChar (l.dropWhile isSpaceChar)).dropWhile
          isSpaceChar) =
      List.rdropWhile isSpaceChar (l.dropWhile isSpaceChar) := by
  have hdw : (List.rdropWhile isSpaceChar
      (l.dropWhile isSpaceChar)).dropWhile isSpaceChar =
      List.rdropWhile isSpaceChar (l.dropWhile isSpaceChar) := by
    rw [List.dropWhile_eq_self_iff]
    intro hl
    have hpre := List.rdropWhile_prefix isSpaceChar (l.dropWhile isSpaceChar)
    have hlen : 0 < (l.dropWhile isSpaceChar).length :=
      lt_of_lt_of_le hl hpre.length_le
    have hhead := List.dropWhile_get_zero_not isSpaceChar l hlen
    have : (List.rdropWhile isSpaceChar (l.dropWhile isSpaceChar)).get ⟨0, hl⟩ =
        (l.dropWhile isSpaceChar).get ⟨0, hlen⟩ := by
      simpa using hpre.getElem hl
    rw [this]
    exact hhead
  rw [hdw, List.rdropWhile_idempotent]

theorem pyStrip_idem (s : String) : pyStrip (pyStrip s) = pyStrip s := by
  unfold pyStrip
  exact congrArg String.mk (stripCore_idem s.data)

theorem pyStrip_pyLower (s : String) :
    pyStrip (pyLower s) = pyLower (pyStrip s) := by
  unfold pyStrip pyLower
  apply congrArg String.mk
  have hcomp : (isSpaceChar ∘ lowerChar) = isSpaceChar := by
    funext c
    exact isSpace_lowerChar c
  rw [List.dropWhile_map, hcomp, List.rdropWhile, List.rdropWhile,
    ← List.map_reverse, List.dropWhile_map, hcomp, ← List.map_reverse]

theorem pyLower_idem (s : String) : pyLower (pyLower s) = pyLower s := by
  unfold pyLower
  apply congrArg String.mk
  rw [List.map_map]
  exact List.map_congr_left (fun c _ => lowerChar_idem c)

theorem normSL_idem (s : String) : normSL (normSL s) = normSL s := by
  unfold normSL
  rw [pyStrip_pyLower, pyStrip_idem, pyLower_idem]

/-- The suppression probe is insensitive to pre-normalizing its argument. -/
theorem is_suppressed_norm (e : String) (db : DB) :
    is_suppressed (normSL e) db = is_suppressed e db := by
  unfold is_suppressed
  rw [normSL_idem]

/-- The suppression probe as an `any` over the table. -/
theorem is_suppressed_any (e : String) (db : DB) :
    is_suppressed e db =
      db.suppressions.any (fun s => s.email_address == normSL e) := by
  unfold is_suppressed
  rw [Bool.eq_iff_iff]
  simp [List.find?_isSome, List.any_eq_true]

/-! ## C8: suppression insertion is idempotent -/

/-- C8: `db_add_suppression` is idempotent. Starting from a store not
containing the address, the first call inserts the one normalized row and
returns it; a second call with any spelling of the same normalized address
performs no write (the state is returned unchanged) and returns the `None`
no-op signal; exactly one row with the normalized address exists after
both calls. -/
theorem suppression_add_idempotent (e e' r1 r2 id1 id2 : String)
    (t1 t2 : Nat) (db : DB)
    (he : normSL e' = normSL e) (h0 : is_suppressed e db = false) :
    (db_add_suppression e r1 id1 t1 db).1 = some ⟨id1, normSL e, r1, t1⟩ ∧
    (db_add_suppression e' r2 id2 t2 (db_add_suppression e r1 id1 t1 db).2).1
      = none ∧
    (db_add_suppression e' r2 id2 t2 (db_add_suppression e r1 id1 t1 db).2).2
      = (db_add_suppression e r1 id1 t1 db).2 ∧
    (db_add_suppression e r1 id1 t1 db).2.suppressions.countP
      (fun s => s.email_address == normSL e) = 1 := by
  have hguard1 : is_suppressed (normSL e) db = false := by
    rw [is_suppressed_norm]; exact h0
  have hfirst : db_add_suppression e r1 id1 t1 db =
      (some ⟨id1, normSL e, r1, t1⟩,
       { db with suppressions := db.suppressions ++ [⟨id1, normSL e, r1, t1⟩] }) := by
    simp [db_add_suppression, hguard1]
  have hguard2 : is_suppressed (normSL e')
      { db with suppressions := db.suppressions ++ [⟨id1, normSL e, r1, t1⟩] }
      = true := by
    rw [he, is_suppressed_norm, is_suppressed_any]
    simp
  have hsecond : db_add_suppression e' r2 id2 t2
      { db with suppressions := db.suppressions ++ [⟨id1, normSL e, r1, t1⟩] } =
      (none,
       { db with suppressions := db.suppressions ++ [⟨id1, normSL e, r1, t1⟩] }) := by
    simp [db_add_suppression, hguard2]
  have hcount0 : db.suppressions.countP
      (fun s => s.email_address == normSL e) = 0 := by
    have hnone : db.suppressions.find?
        (fun s => s.email_address == normSL e) = none := by
      unfold is_suppressed at h0
      exact Option.not_isSome_iff_eq_none.mp (by simp [h0])
    rw [List.countP_eq_zero]
    intro a ha
    simpa using List.find?_eq_none.mp hnone a ha
  refine ⟨by rw [hfirst], ?_, ?_, ?_⟩
  · rw [hfirst, hsecond]
  · rw [hfirst, hsecond]
  · rw [hfirst]
    simp [List.countP_append, hcount0]

/-- C8 witness: two insertions of spellings of `a@x.com` into the empty
store. -/
theorem suppression_add_idempotent_witness :
    normSL "a@x.com" = normSL " A@X.com " ∧
    is_suppressed " A@X.com " emptyDB = false ∧
    ((db_add_suppression " A@X.com " "r1" "id1" 5 emptyDB).1 =
       some ⟨"id1", normSL " A@X.com ", "r1", 5⟩ ∧
     (db_add_suppression "a@x.com" "r2" "id2" 9
        (db_add_suppression " A@X.com " "r1" "id1" 5 emptyDB).2).1 = none ∧
     (db_add_suppression "a@x.com" "r2" "id2" 9
        (db_add_suppression " A@X.com " "r1" "id1" 5 emptyDB).2).2 =
       (db_add_suppression " A@X.com " "r1" "id1" 5 emptyDB).2 ∧
     (db_add_suppression " A@X.com " "r1" "id1" 5 emptyDB).2.suppressions.countP
       (fun s => s.email_address == normSL " A@X.com ") = 1) :=
  ⟨by decide, by decide,
   suppression_add_idempotent " A@X.com " "a@x.com" "r1" "r2" "id1" "id2"
     5 9 emptyDB (by decide) (by decide)⟩

/-! ## C5: which address comparisons are normalized -/

/-- C5 counterexample: a lead stored as `John@Example.com` is found by a
verbatim lookup, but the Reply Processor resolution of a reply coming from
that very address (normalized by the endpoint) finds nothing — lead-by-
address resolution is not insensitive to the stored casing. -/
theorem lead_resolution_case_cex :
    normLS "John@Example.com" = "john@example.com" ∧
    findLeadByEmail dbJ "John@Example.com" = some leadJ ∧
    resolveReplyLead dbJ "John@Example.com" = none ∧
    findLeadByEmail dbJ "john@example.com" = none := by decide

/-- C5 amended: the suppression lookup is insensitive to the probe's
casing/whitespace, suppression insertion stores normalized (any spelling
of an inserted address is subsequently reported suppressed), and the reply
endpoint normalizes the incoming sender address — but the lead lookup
compares that normalized incoming address verbatim with the stored lead
email, so it succeeds only when the stored email is itself in normalized
form. -/
theorem address_normalization_amended :
    (∀ e e' : String, ∀ db : DB, normSL e = normSL e' →
        is_suppressed e db = is_suppressed e' db) ∧
    (∀ e e' r id : String, ∀ t : Nat, ∀ db : DB, normSL e' = normSL e →
        is_suppressed e' (add_suppression e r id t db) = true) ∧
    (∀ raw raw' : String, ∀ db : DB, normLS raw = normLS raw' →
        resolveReplyLead db raw = resolveReplyLead db raw') ∧
    (∀ db : DB, ∀ raw : String, ∀ lead : Lead,
        resolveReplyLead db raw = some lead →
        lead.email = some (normLS raw)) := by
  refine ⟨?_, ?_, ?_, ?_⟩
  · intro e e' db h
    unfold is_suppressed
    rw [h]
  · intro e e' r id t db he
    unfold add_suppression
    by_cases g : is_suppressed (normSL e) db
    · rw [if_pos g]
      have : is_suppressed (normSL e') db = true := by rw [he]; exact g
      rw [← is_suppressed_norm]
      exact this
    · rw [if_neg g, is_suppressed_any]
      simp [he]
  · intro raw raw' db h
    unfold resolveReplyLead
    rw [h]
  · intro db raw lead h
    have := List.find?_some h
    simpa using this

/-- C5 amended witness: each conjunct at a concrete store. -/
theorem address_normalization_amended_witness :
    (is_suppressed " A@X.com " emptyDB = is_suppressed "a@x.com" emptyDB) ∧
    (is_suppressed "A@x.com" (add_suppression " a@X.com " "r" "i" 3 emptyDB)
      = true) ∧
    (resolveReplyLead dbJ " John@example.COM " =
      resolveReplyLead dbJ "john@EXAMPLE.com") ∧
    (leadX.email = some (normLS " X@Y.com ")) :=
  ⟨address_normalization_amended.1 " A@X.com " "a@x.com" emptyDB (by decide),
   address_normalization_amended.2.1 " a@X.com " "A@x.com" "r" "i" 3 emptyDB
     (by decide),
   address_normalization_amended.2.2.1 " John@example.COM " "john@EXAMPLE.com"
     dbJ (by decide),
   address_normalization_amended.2.2.2 dbX " X@Y.com " leadX (by decide)⟩

/-! ## C6: unsubscribe replies suppress and create no Reply -/

/-- C6: when the sender resolves to a lead and the text contains an
unsubscribe keyword, `process_reply` leaves replies, records and leads
untouched (no Reply row, no `replied` transition, no classification
side effect), marks the address suppressed, and inserts exactly one new
normalized Suppression row — none when the address was already
suppressed. -/
theorem unsubscribe_reply_outcome (cfg : ReplyConfig) (oracle : ReplyOracle)
    (t : Nat) (from_email text_body in_reply_to : String) (db : DB)
    (lead : Lead)
    (hlead : findLeadByEmail db from_email = some lead)
    (hkw : hasUnsubscribeKeyword text_body = true) :
    (process_reply cfg oracle t from_email text_body in_reply_to db).replies
      = db.replies ∧
    (process_reply cfg oracle t from_email text_body in_reply_to db).records
      = db.records ∧
    (process_reply cfg oracle t from_email text_body in_reply_to db).leads
      = db.leads ∧
    is_suppressed from_email
      (process_reply cfg oracle t from_email text_body in_reply_to db) = true ∧
    (is_suppressed from_email db = false →
      (process_reply cfg oracle t from_email text_body in_reply_to db).suppressions
        = db.suppressions ++
            [⟨oracle.suppId, normSL from_email, "unsubscribe_reply", t⟩]) ∧
    (is_suppressed from_email db = true →
      (process_reply cfg oracle t from_email text_body in_reply_to db).suppressions
        = db.suppressions) := by
  have hpr : process_reply cfg oracle t from_email text_body in_reply_to db =
      add_suppression from_email "unsubscribe_reply" oracle.suppId t db := by
    unfold process_reply
    rw [hlead]
    simp [hkw]
  rw [hpr]
  unfold add_suppression
  by_cases g : is_suppressed (normSL from_email) db
  · have g' : is_suppressed from_email db = true := by
      rw [← is_suppressed_norm]; exact g
    rw [if_pos g]
    refine ⟨rfl, rfl, rfl, g', fun h => ?_, fun _ => rfl⟩
    rw [h] at g'
    exact absurd g' (by decide)
  · have g' : is_suppressed from_email db = false := by
      rw [← is_suppressed_norm]
      exact Bool.eq_false_iff.mpr g
    rw [if_neg g]
    refine ⟨rfl, rfl, rfl, ?_, fun _ => rfl, fun h => by rw [g'] at h; cases h⟩
    rw [is_suppressed_any]
    simp

/-- C6 witness: a reply `"please unsubscribe me"` from `u@x.com`. -/
theorem unsubscribe_reply_outcome_witness :
    (process_reply cfgW oracleW 7 "u@x.com" "please unsubscribe me" "" dbU).replies
      = dbU.replies ∧
    (process_reply cfgW oracleW 7 "u@x.com" "please unsubscribe me" "" dbU).records
      = dbU.records ∧
    (process_reply cfgW oracleW 7 "u@x.com" "please unsubscribe me" "" dbU).leads
      = dbU.leads ∧
    is_suppressed "u@x.com"
      (process_reply cfgW oracleW 7 "u@x.com" "please unsubscribe me" "" dbU) = true ∧
    (is_suppressed "u@x.com" dbU = false →
      (process_reply cfgW oracleW 7 "u@x.com" "please unsubscribe me" "" dbU).suppressions
        = dbU.suppressions ++
            [⟨oracleW.suppId, normSL "u@x.com", "unsubscribe_reply", 7⟩]) ∧
    (is_suppressed "u@x.com" dbU = true →
      (process_reply cfgW oracleW 7 "u@x.com" "please unsubscribe me" "" dbU).suppressions
        = dbU.suppressions) :=
  unsubscribe_reply_outcome cfgW oracleW 7 "u@x.com" "please unsubscribe me"
    "" dbU leadU (by decide) (by decide)

/-! ## C7: threading a reply by message-id -/

/-- C7: a non-unsubscribe reply whose `in_reply_to` equals a stored
record's `message_id` produces exactly one new Reply whose `email_id`
references that record, and that record's status is set to `replied`
(all other tables untouched). -/
theorem reply_threading_by_message_id (cfg : ReplyConfig)
    (oracle : ReplyOracle) (t : Nat)
    (from_email text_body in_reply_to : String) (db : DB)
    (lead : Lead) (rec : EmailRecord)
    (hlead : findLeadByEmail db from_email = some lead)
    (hkw : hasUnsubscribeKeyword text_body = false)
    (hne : (in_reply_to == "") = false)
    (hfind : db.records.find? (fun r => r.message_id == some in_reply_to)
      = some rec) :
    (∃ nr : Reply,
      (process_reply cfg oracle t from_email text_body in_reply_to db).replies
        = db.replies ++ [nr] ∧
      nr.email_id = some rec.id ∧ nr.lead_id = lead.id) ∧
    (process_reply cfg oracle t from_email text_body in_reply_to db).records
      = db.records.map (fun r =>
          if r.id == rec.id then { r with status := .replied } else r) ∧
    (process_reply cfg oracle t from_email text_body in_reply_to db).leads
      = db.leads ∧
    (process_reply cfg oracle t from_email text_body in_reply_to db).suppressions
      = db.suppressions := by
  unfold process_reply
  rw [hlead]
  simp only [hkw, hne, hfind, Bool.false_eq_true, if_false]
  exact ⟨⟨_, rfl, rfl, rfl⟩, trivial, trivial, trivial⟩

/-- C7 witness: a reply from `u@x.com` threading to `mid-1`. -/
theorem reply_threading_by_message_id_witness :
    (∃ nr : Reply,
      (process_reply cfgW oracleW 9 "u@x.com" "tell me more" "mid-1" dbT).replies
        = dbT.replies ++ [nr] ∧
      nr.email_id = some recT.id ∧ nr.lead_id = leadU.id) ∧
    (process_reply cfgW oracleW 9 "u@x.com" "tell me more" "mid-1" dbT).records
      = dbT.records.map (fun r =>
          if r.id == recT.id then { r with status := .replied } else r) ∧
    (process_reply cfgW oracleW 9 "u@x.com" "tell me more" "mid-1" dbT).leads
      = dbT.leads ∧
    (process_reply cfgW oracleW 9 "u@x.com" "tell me more" "mid-1" dbT).suppressions
      = dbT.suppressions :=
  reply_threading_by_message_id cfgW oracleW 9 "u@x.com" "tell me more"
    "mid-1" dbT leadU recT (by decide) (by decide) (by decide) (by decide)

/-! ## C9: Reply Sender no-ops, success and failure -/

/-- C9: `send_single_reply` leaves the store untouched when the Reply is
already sent or has no draft; on transport failure it returns an error
string with the store unchanged (so approval can be re-invoked); on
transport success it sets exactly `sent := true` and `responded_at` on
that Reply. -/
theorem send_single_reply_behavior (db : DB) (replyId : String) (t : Nat)
    (transport : Except String Unit) (reply : Reply)
    (hfind : db.replies.find? (fun x => x.id == replyId) = some reply) :
    (reply.sent = true →
      send_single_reply db replyId t transport = (db, "Reply already sent")) ∧
    (reply.sent = false → reply.llm_response_draft = none →
      send_single_reply db replyId t transport =
        (db, "Reply has no draft to send")) ∧
    (∀ d : String, reply.sent = false → reply.llm_response_draft = some d →
      (d == "") = false →
      ∀ lead : Lead, findLead db reply.lead_id = some lead →
      (∀ msg : String, transport = .error msg →
        send_single_reply db replyId t transport = (db, "Failed: " ++ msg)) ∧
      (transport = .ok () →
        send_single_reply db replyId t transport =
          ({ db with replies := db.replies.map (fun x =>
              if x.id == replyId then
                { x with sent := true, responded_at := some t }
              else x) },
           "Reply sent to " ++ (lead.email.getD "")))) := by
  refine ⟨?_, ?_, ?_⟩
  · intro hsent
    unfold send_single_reply
    rw [hfind]
    simp [hsent]
  · intro hsent hdraft
    unfold send_single_reply
    rw [hfind]
    simp [hsent, hdraft]
  · intro d hsent hdraft hdne lead hlead
    constructor
    · intro msg htr
      unfold send_single_reply
      rw [hfind]
      simp [hsent, hdraft, hdne, hlead, htr]
    · intro htr
      unfold send_single_reply
      rw [hfind]
      simp [hsent, hdraft, hdne, hlead, htr]

/-- C9 witness: a successful transport send of `replyS`. -/
theorem send_single_reply_behavior_witness :
    send_single_reply dbS "R1" 42 (Except.ok ()) =
      ({ dbS with replies := dbS.replies.map (fun x =>
          if x.id == "R1" then
            { x with sent := true, responded_at := some 42 }
          else x) },
       "Reply sent to " ++ (leadU.email.getD "")) :=
  ((send_single_reply_behavior dbS "R1" 42 (Except.ok ()) replyS
      (by decide)).2.2 "the draft" (by decide) (by decide) (by decide)
      leadU (by decide)).2 rfl

/-! ## Send Gate helper lemmas -/

/-- `should_send_email`, rewritten as the cascade over the named check
conditions, valid whenever the lead resolves with a non-`NULL` email. -/
theorem should_send_email_eq (record : EmailRecord) (db : DB) (lead : Lead)
    (e : String) (hfl : findLead db record.lead_id = some lead)
    (he : lead.email = some e) :
    should_send_email record db =
      if is_suppressed e db then Except.ok (false, some "suppressed")
      else if leadReplied db record then
        Except.ok (false, some "lead_already_replied")
      else if prevStepBounced db record then
        Except.ok (false, some "previous_step_bounced")
      else Except.ok (true, none) := by
  unfold should_send_email leadReplied prevStepBounced
  simp only [hfl, he]
  generalize is_suppressed e db = b1
  cases b1
  case true => rfl
  case false =>
    generalize (db.records.find? (fun r =>
      r.lead_id == record.lead_id && r.campaign_id == record.campaign_id &&
      r.status == EmailStatus.replied)).isSome = b2
    cases b2
    case true => rfl
    case false =>
      by_cases h3 : record.sequence_step > 1
      · cases hp : db.records.find? (fun r =>
            r.lead_id == record.lead_id &&
            r.campaign_id == record.campaign_id &&
            r.sequence_step == record.sequence_step - 1) with
        | none => simp [h3, hp]
        | some prev =>
          cases h4 : (prev.status == EmailStatus.bounced) <;> simp [h3, hp, h4]
      · simp [h3]

/-- A failed pre-check makes the dispatcher mark the record
`no_lead_email` without consulting the gate. -/
theorem processOne_no_email (oracle : SendOracle) (t : Nat) (db : DB)
    (record : EmailRecord) (h : resolvedEmail db record = none) :
    processOne oracle t db record = markFailed db record.id "no_lead_email" := by
  unfold processOne
  unfold resolvedEmail at h
  cases hfl : findLead db record.lead_id with
  | none => simp [hfl]
  | some lead =>
    simp only [hfl] at h
    cases he : lead.email with
    | none => simp [hfl, he]
    | some e =>
      simp only [he] at h
      cases hz : (e == "") with
      | true => simp [hfl, he, hz]
      | false => rw [hz] at h; simp at h

/-- A gate rejection makes the dispatcher mark the record `failed` with
exactly the gate's reason. -/
theorem processOne_gate_reason (oracle : SendOracle) (t : Nat) (db : DB)
    (record : EmailRecord) (e reason : String)
    (hres : resolvedEmail db record = some e)
    (hg : should_send_email record db = Except.ok (false, some reason)) :
    processOne oracle t db record = markFailed db record.id reason := by
  unfold resolvedEmail at hres
  unfold processOne
  cases hfl : findLead db record.lead_id with
  | none => simp [hfl] at hres
  | some lead =>
    simp only [hfl] at hres
    cases he : lead.email with
    | none => simp [he] at hres
    | some e' =>
      simp only [he] at hres
      cases hz : (e' == "") with
      | true => rw [hz] at hres; simp at hres
      | false => simp [hfl, he, hz, hg]

/-- The gate raises exactly when the lead is missing or its email is
`NULL`. -/
theorem should_send_email_error_of_raw (record : EmailRecord) (db : DB)
    (h : rawLeadEmail db record = none) :
    ∃ msg, should_send_email record db = Except.error msg := by
  unfold rawLeadEmail at h
  unfold should_send_email
  cases hfl : findLead db record.lead_id with
  | none => exact ⟨"AttributeError: record.lead is None", by simp [hfl]⟩
  | some lead =>
    simp only [hfl] at h
    exact ⟨"AttributeError: lead.email is None", by simp [hfl, h]⟩

/-- The gate returns normally whenever the lead resolves with a
non-`NULL` email. -/
theorem should_send_email_ok_of_raw (record : EmailRecord) (db : DB)
    (e : String) (h : rawLeadEmail db record = some e) :
    ∃ v, should_send_email record db = Except.ok v := by
  unfold rawLeadEmail at h
  cases hfl : findLead db record.lead_id with
  | none => simp [hfl] at h
  | some lead =>
    simp only [hfl] at h
    rw [should_send_email_eq record db lead e hfl h]
    split_ifs <;> exact ⟨_, rfl⟩

/-- The dispatcher pre-check is stronger than the gate's own
requirement. -/
theorem raw_of_resolved (db : DB) (record : EmailRecord) (e : String)
    (h : resolvedEmail db record = some e) : rawLeadEmail db record = some e := by
  unfold resolvedEmail at h
  unfold rawLeadEmail
  cases hfl : findLead db record.lead_id with
  | none => simp [hfl] at h
  | some lead =>
    simp only [hfl] at h ⊢
    cases he : lead.email with
    | none => simp [he] at h
    | some e' =>
      simp only [he] at h
      cases hz : (e' == "") with
      | true => rw [hz] at h; simp at h
      | false => rw [hz] at h; simpa using h

/-! ## C1: the Send Gate cascade, first failure wins -/

/-- C1: for a record evaluated by the dispatcher, the checks run in order
with the first failure winning: no resolvable lead email →
`no_lead_email`; else suppressed → `suppressed`; else a `replied` record
for the (lead, campaign) pair → `lead_already_replied`; else step > 1
with the previous step `bounced` → `previous_step_bounced`; else the gate
returns eligible `(True, None)`. -/
theorem send_gate_cascade (oracle : SendOracle) (t : Nat)
    (record : EmailRecord) (db : DB) :
    (resolvedEmail db record = none →
      processOne oracle t db record = markFailed db record.id "no_lead_email") ∧
    (∀ e, resolvedEmail db record = some e →
      (is_suppressed e db = true →
        should_send_email record db = Except.ok (false, some "suppressed") ∧
        processOne oracle t db record = markFailed db record.id "suppressed") ∧
      (is_suppressed e db = false → leadReplied db record = true →
        should_send_email record db =
          Except.ok (false, some "lead_already_replied") ∧
        processOne oracle t db record =
          markFailed db record.id "lead_already_replied") ∧
      (is_suppressed e db = false → leadReplied db record = false →
        prevStepBounced db record = true →
        should_send_email record db =
          Except.ok (false, some "previous_step_bounced") ∧
        processOne oracle t db record =
          markFailed db record.id "previous_step_bounced") ∧
      (is_suppressed e db = false → leadReplied db record = false →
        prevStepBounced db record = false →
        should_send_email record db = Except.ok (true, none))) := by
  constructor
  · exact processOne_no_email oracle t db record
  · intro e he
    obtain ⟨lead, hfl, hee⟩ : ∃ lead, findLead db record.lead_id = some lead ∧
        lead.email = some e := by
      unfold resolvedEmail at he
      cases hfl : findLead db record.lead_id with
      | none => simp [hfl] at he
      | some lead =>
        simp only [hfl] at he
        cases hml : lead.email with
        | none => simp [hml] at he
        | some e' =>
          simp only [hml] at he
          cases hz : (e' == "") with
          | true => rw [hz] at he; simp at he
          | false =>
            rw [hz] at he
            injection he with h
            exact ⟨lead, rfl, by rw [hml, h]⟩
    have hEq := should_send_email_eq record db lead e hfl hee
    refine ⟨?_, ?_, ?_, ?_⟩
    · intro h1
      have hg : should_send_email record db =
          Except.ok (false, some "suppressed") := by rw [hEq, if_pos h1]
      exact ⟨hg, processOne_gate_reason oracle t db record e "suppressed" he hg⟩
    · intro h1 h2
      have hg : should_send_email record db =
          Except.ok (false, some "lead_already_replied") := by
        rw [hEq, if_neg (by simp [h1]), if_pos h2]
      exact ⟨hg, processOne_gate_reason oracle t db record e
        "lead_already_replied" he hg⟩
    · intro h1 h2 h3
      have hg : should_send_email record db =
          Except.ok (false, some "previous_step_bounced") := by
        rw [hEq, if_neg (by simp [h1]), if_neg (by simp [h2]), if_pos h3]
      exact ⟨hg, processOne_gate_reason oracle t db record e
        "previous_step_bounced" he hg⟩
    · intro h1 h2 h3
      rw [hEq, if_neg (by simp [h1]), if_neg (by simp [h2]),
        if_neg (by simp [h3])]

/-- C1 witness: `recC1` in `dbC1`, where the lead's address is
suppressed. -/
theorem send_gate_cascade_witness :
    should_send_email recC1 dbC1 = Except.ok (false, some "suppressed") ∧
    processOne oracleS 0 dbC1 recC1 = markFailed dbC1 recC1.id "suppressed" :=
  ((send_gate_cascade oracleS 0 recC1 dbC1).2 "u@x.com" (by decide)).1
    (by decide)

/-! ## C10: the gate's lead/email precondition -/

/-- C10: `should_send_email` raises exactly when the record's lead is
missing or has a `NULL` email (the access `record.lead.email` /
`.strip()`); the dispatcher establishes the precondition by marking such
records `failed, no_lead_email` itself, and whenever its pre-check
passes, the gate returns normally — its error branch is unreachable at
the call site. -/
theorem gate_lead_email_precondition (oracle : SendOracle) (t : Nat)
    (record : EmailRecord) (db : DB) :
    (rawLeadEmail db record = none →
      ∃ msg, should_send_email record db = Except.error msg) ∧
    (∀ e, rawLeadEmail db record = some e →
      ∃ v, should_send_email record db = Except.ok v) ∧
    (resolvedEmail db record = none →
      processOne oracle t db record = markFailed db record.id "no_lead_email") ∧
    (∀ e, resolvedEmail db record = some e →
      ∃ v, should_send_email record db = Except.ok v) :=
  ⟨should_send_email_error_of_raw record db,
   fun e he => should_send_email_ok_of_raw record db e he,
   processOne_no_email oracle t db record,
   fun e he => should_send_email_ok_of_raw record db e
     (raw_of_resolved db record e he)⟩

/-- C10 witness: `recC10` has no lead, so the gate raises and the
dispatcher records `no_lead_email`. -/
theorem gate_lead_email_precondition_witness :
    (∃ msg, should_send_email recC10 dbU = Except.error msg) ∧
    processOne oracleS 0 dbU recC10 = markFailed dbU recC10.id "no_lead_email" :=
  ⟨(gate_lead_email_precondition oracleS 0 recC10 dbU).1 (by decide),
   (gate_lead_email_precondition oracleS 0 recC10 dbU).2.2.1 (by decide)⟩

/-! ## Sequence Generator helper lemmas -/

/-- Eligibility only reads the `leads` and `suppressions` tables. -/
theorem leadEligible_congr (db0 db : DB) (hl : db.leads = db0.leads)
    (hs : db.suppressions = db0.suppressions) (lid : String) :
    leadEligible db lid = leadEligible db0 lid := by
  unfold leadEligible findLead is_suppressed
  rw [hl, hs]

/-- Five rows per eligible lead. -/
theorem stepRows_length (cid lid : String) (now : Nat)
    (draws : String → Nat → Nat × Nat × Nat) (ids : String → Nat → String) :
    (stepRows cid lid now draws ids).length = 5 := rfl

/-- The loop of `enqueue_campaign_sequence`, characterized: it appends
the five step rows of every eligible entry, counts five queued per
eligible entry and one skipped per ineligible entry. -/
theorem enqueueGo_spec (cid : String) (now : Nat)
    (draws : String → Nat → Nat × Nat × Nat) (ids : String → Nat → String) :
    ∀ (leadIds : List String) (db0 db : DB) (q s : Nat),
      db.leads = db0.leads → db.suppressions = db0.suppressions →
      enqueueGo cid now draws ids leadIds db q s =
        ({ db with records := db.records ++ (leadIds.filter (leadEligible db0)).flatMap (fun lid => stepRows cid lid now draws ids) },
         q + 5 * leadIds.countP (leadEligible db0),
         s + leadIds.countP (fun l => !leadEligible db0 l)) := by
  intro leadIds
  induction leadIds with
  | nil =>
    intro db0 db q s hl hs
    simp [enqueueGo]
  | cons lid rest ih =>
    intro db0 db q s hl hs
    unfold enqueueGo
    rw [leadEligible_congr db0 db hl hs lid]
    cases helig : leadEligible db0 lid with
    | true =>
      rw [if_pos rfl]
      rw [ih db0 { db with records := db.records ++ stepRows cid lid now draws ids } (q + (stepRows cid lid now draws ids).length) s hl hs]
      simp only [Prod.mk.injEq]
      refine ⟨?_, ?_, ?_⟩
      · simp [List.filter_cons, helig, List.append_assoc]
      · simp [List.countP_cons, helig, stepRows_length]
        ring
      · simp [List.countP_cons, helig]
    | false =>
      rw [if_neg (by simp)]
      rw [ih db0 db q (s + 1) hl hs]
      simp only [Prod.mk.injEq]
      refine ⟨?_, ?_, ?_⟩
      · simp [List.filter_cons, helig]
      · simp [List.countP_cons, helig]
      · simp [List.countP_cons, helig]
        omega

/-- `enqueue_campaign_sequence`, characterized in terms of
`enqueueRows`. -/
theorem enqueue_eq (cid : String) (leadIds : List String) (now : Nat)
    (draws : String → Nat → Nat × Nat × Nat) (ids : String → Nat → String)
    (db : DB) :
    enqueue_campaign_sequence cid leadIds now draws ids db =
      ({ db with records := db.records ++ enqueueRows cid leadIds now draws ids db },
       5 * leadIds.countP (leadEligible db),
       leadIds.countP (fun l => !leadEligible db l)) := by
  unfold enqueue_campaign_sequence enqueueRows
  simpa using enqueueGo_spec cid now draws ids leadIds db db 0 0 rfl rfl

/-- `schedFor` splits into a date part and a clock part. -/
theorem schedFor_eq (now d h m : Nat) :
    schedFor now d h m = (now / daySecs + d) * daySecs + h * 3600 + m * 60 := by
  unfold schedFor dayFloor daySecs
  omega

/-! ## C2: the scheduling policy -/

/-- C2 counterexample: launching at 15:30 (55800 s into the day) with
legal random draws (`drawsFix`, whose step-1 draws are delay 0, hour 9,
minute 0 — all inside the code's `randint` ranges), the step-1 row is
scheduled at 09:00 (32400 s), not at `now`: the code replaces the clock
time of every step, including step 1, with the random 9:00–11:55 jitter
time. -/
theorem step_one_schedule_cex :
    drawsFix "LU" 1 = (0, 9, 0) ∧
    ((enqueue_campaign_sequence "C" ["LU"] 55800 drawsFix idsFix dbU).1.records.map
      (fun r => (r.sequence_step, r.scheduled_at))).head? = some (1, some 32400) ∧
    (some 32400 : Option Nat) ≠ some 55800 := by decide

/-- C2 amended: every row created by `enqueue_campaign_sequence` (under
draws inside the code's `randint` ranges) is scheduled at day
`launch-day + d` with `d` in the step's window (step 1's window is 0–0,
so the launch day itself), and clock time `h:m:00` with `h` drawn from
9–11 and `m` from 0–55 — for step 1 too, whose `scheduled_at` is
therefore the launch date at the jittered time, not `now`. -/
theorem schedule_policy_amended (cid : String) (leadIds : List String)
    (now : Nat) (draws : String → Nat → Nat × Nat × Nat)
    (ids : String → Nat → String) (db : DB)
    (hd : ∀ lid step lo hi, (step, lo, hi) ∈ SEQUENCE_DELAYS →
      lo ≤ (draws lid step).1 ∧ (draws lid step).1 ≤ hi ∧
      9 ≤ (draws lid step).2.1 ∧ (draws lid step).2.1 ≤ 11 ∧
      (draws lid step).2.2 ≤ 55) :
    ∀ r ∈ (enqueue_campaign_sequence cid leadIds now draws ids db).1.records,
      r ∈ db.records ∨
      ∃ lo hi d h m, (r.sequence_step, lo, hi) ∈ SEQUENCE_DELAYS ∧
        lo ≤ d ∧ d ≤ hi ∧ 9 ≤ h ∧ h ≤ 11 ∧ m ≤ 55 ∧
        r.scheduled_at = some ((now / daySecs + d) * daySecs + h * 3600 + m * 60) ∧
        (r.sequence_step = 1 →
          r.scheduled_at = some (dayFloor now + h * 3600 + m * 60)) := by
  intro r hr
  rw [enqueue_eq] at hr
  simp only [List.mem_append] at hr
  cases hr with
  | inl h => exact Or.inl h
  | inr h =>
    right
    unfold enqueueRows at h
    simp only [List.mem_flatMap] at h
    obtain ⟨lid, hlid, hstep⟩ := h
    unfold stepRows at hstep
    simp only [List.mem_map] at hstep
    obtain ⟨w, hw, rfl⟩ := hstep
    obtain ⟨h1, h2, h3, h4, h5⟩ := hd lid w.1 w.2.1 w.2.2 hw
    refine ⟨w.2.1, w.2.2, (draws lid w.1).1, (draws lid w.1).2.1,
      (draws lid w.1).2.2, hw, h1, h2, h3, h4, h5, ?_, ?_⟩
    · simp [mkSeqRecord, schedFor_eq]
    · intro hstep1
      simp only [mkSeqRecord] at hstep1
      have hw' : w = (1, 0, 0) := by
        have hmem := hw
        fin_cases hmem <;> simp_all
      subst hw'
      have hd0 : (draws lid 1).1 = 0 := Nat.le_zero.mp h2
      simp [mkSeqRecord, schedFor_eq, hd0, dayFloor]

/-- C2 amended witness: the step-1 row of a launch at 15:30 under
`drawsFix`. -/
theorem schedule_policy_amended_witness :
    rW1 ∈ dbU.records ∨
    ∃ lo hi d h m, (rW1.sequence_step, lo, hi) ∈ SEQUENCE_DELAYS ∧
      lo ≤ d ∧ d ≤ hi ∧ 9 ≤ h ∧ h ≤ 11 ∧ m ≤ 55 ∧
      rW1.scheduled_at = some ((55800 / daySecs + d) * daySecs + h * 3600 + m * 60) ∧
      (rW1.sequence_step = 1 →
        rW1.scheduled_at = some (dayFloor 55800 + h * 3600 + m * 60)) :=
  schedule_policy_amended "C" ["LU"] 55800 drawsFix idsFix dbU
    (by intro lid step lo hi hmem; fin_cases hmem <;> simp [drawsFix])
    rW1 (by decide)

/-! ## C4: the Sequence Generator contract -/

/-- Complement counting: negated and positive `countP` sum to the
length. -/
theorem countP_not_add {α : Type} (p : α → Bool) (l : List α) :
    l.countP (fun a => !p a) + l.countP p = l.length := by
  induction l with
  | nil => rfl
  | cons x t ih =>
    simp only [List.countP_cons, List.length_cons]
    cases hx : p x <;> simp [hx] <;> omega

/-- C4: `enqueue_campaign_sequence` appends exactly the five pending step
rows (steps 1..5) per eligible entry of `lead_ids` (a lead that exists,
has a non-empty email and is not suppressed at generation time), skips
ineligible ones without creating any row, returns
`queued = 5 * eligible` and `skipped = ineligible = length - eligible`,
and — for a duplicate-free `lead_ids` — creates exactly one row per
`(lead, step)` pair. -/
theorem enqueue_contract (cid : String) (leadIds : List String) (now : Nat)
    (draws : String → Nat → Nat × Nat × Nat) (ids : String → Nat → String)
    (db : DB) :
    (enqueue_campaign_sequence cid leadIds now draws ids db).1 =
      { db with records := db.records ++ enqueueRows cid leadIds now draws ids db } ∧
    (enqueue_campaign_sequence cid leadIds now draws ids db).2.1 =
      5 * leadIds.countP (leadEligible db) ∧
    (enqueue_campaign_sequence cid leadIds now draws ids db).2.2 =
      leadIds.countP (fun l => !leadEligible db l) ∧
    leadIds.countP (fun l => !leadEligible db l) =
      leadIds.length - leadIds.countP (leadEligible db) ∧
    (∀ r ∈ enqueueRows cid leadIds now draws ids db,
      r.status = EmailStatus.pending ∧ r.campaign_id = cid ∧
      leadEligible db r.lead_id = true) ∧
    (enqueueRows cid leadIds now draws ids db).map
        (fun r => (r.lead_id, r.sequence_step)) =
      (leadIds.filter (leadEligible db)).flatMap
        (fun lid => [(lid, 1), (lid, 2), (lid, 3), (lid, 4), (lid, 5)]) ∧
    (leadIds.Nodup →
      ((enqueueRows cid leadIds now draws ids db).map
        (fun r => (r.lead_id, r.sequence_step))).Nodup) := by
  have hEq := enqueue_eq cid leadIds now draws ids db
  have hmap : (enqueueRows cid leadIds now draws ids db).map
      (fun r => (r.lead_id, r.sequence_step)) =
      (leadIds.filter (leadEligible db)).flatMap
        (fun lid => [(lid, 1), (lid, 2), (lid, 3), (lid, 4), (lid, 5)]) := by
    unfold enqueueRows
    rw [List.map_flatMap]
    rfl
  have hsum := countP_not_add (leadEligible db) leadIds
  refine ⟨by rw [hEq], by rw [hEq], by rw [hEq], by omega, ?_, hmap, ?_⟩
  · intro r hr
    unfold enqueueRows at hr
    simp only [List.mem_flatMap] at hr
    obtain ⟨lid, hlid, hstep⟩ := hr
    unfold stepRows at hstep
    simp only [List.mem_map] at hstep
    obtain ⟨w, hw, rfl⟩ := hstep
    exact ⟨rfl, rfl, (List.mem_filter.mp hlid).2⟩
  · intro hnd
    rw [hmap]
    apply List.nodup_flatMap.mpr
    constructor
    · intro lid _
      simp
    · refine (hnd.filter _).imp ?_
      intro a b hne x hx hx'
      simp only [List.mem_cons, List.not_mem_nil, or_false] at hx hx'
      rcases hx with rfl | rfl | rfl | rfl | rfl <;>
        rcases hx' with h | h | h | h | h <;>
        exact absurd (congrArg Prod.fst h) hne

/-- C4 witness: two entries, one eligible lead and one unknown id. -/
theorem enqueue_contract_witness :
    (enqueue_campaign_sequence "C" ["LU", "L9"] 0 drawsFix idsFix dbU).2.1 =
      5 * (["LU", "L9"].countP (leadEligible dbU)) ∧
    (rowW.status = EmailStatus.pending ∧ rowW.campaign_id = "C" ∧
      leadEligible dbU rowW.lead_id = true) ∧
    ((enqueueRows "C" ["LU", "L9"] 0 drawsFix idsFix dbU).map
      (fun r => (r.lead_id, r.sequence_step))).Nodup :=
  ⟨(enqueue_contract "C" ["LU", "L9"] 0 drawsFix idsFix dbU).2.1,
   (enqueue_contract "C" ["LU", "L9"] 0 drawsFix idsFix dbU).2.2.2.2.1 rowW
     (by decide),
   (enqueue_contract "C" ["LU", "L9"] 0 drawsFix idsFix dbU).2.2.2.2.2.2
     (by decide)⟩

/-! ## Dispatcher helper lemmas -/

/-- Every branch of the dispatcher loop body commits one keyed update of
the processed record, and the update never changes the primary key. -/
theorem processOne_update (oracle : SendOracle) (t : Nat) (db : DB)
    (r : EmailRecord) :
    ∃ f, processOne oracle t db r = updateRecord db r.id f ∧
      ∀ q, (f q).id = q.id := by
  unfold processOne markFailed
  repeat' split
  all_goals exact ⟨_, rfl, fun q => rfl⟩

/-- A keyed update with an id-preserving mutation leaves the id column
unchanged. -/
theorem updateRecord_ids (db : DB) (i : String) (f : EmailRecord → EmailRecord)
    (hf : ∀ q, (f q).id = q.id) :
    (updateRecord db i f).records.map (fun r => r.id) =
      db.records.map (fun r => r.id) := by
  unfold updateRecord
  rw [List.map_map]
  apply List.map_congr_left
  intro q _
  simp only [Function.comp_apply]
  by_cases h : (q.id == i) = true
  · rw [if_pos h]; exact hf q
  · rw [if_neg h]

/-- Under unique primary keys, a keyed update changes at most one row, so
any count grows by at most one. -/
theorem countP_update_le (p : EmailRecord → Bool) (i : String)
    (f : EmailRecord → EmailRecord) :
    ∀ l : List EmailRecord, (l.map (fun r => r.id)).Nodup →
      (l.map (fun r => if r.id == i then f r else r)).countP p ≤
        l.countP p + 1 := by
  intro l
  induction l with
  | nil => simp
  | cons x tl ih =>
    intro hnd
    simp only [List.map_cons, List.nodup_cons, List.mem_map] at hnd
    by_cases hx : (x.id == i) = true
    · have hi : x.id = i := by simpa using hx
      have htail : tl.map (fun r => if r.id == i then f r else r) = tl := by
        have hpt : ∀ y ∈ tl, (if y.id == i then f y else y) = y := by
          intro y hy
          have hne : y.id ≠ i := by
            intro hcontra
            exact hnd.1 ⟨y, hy, by rw [hcontra, hi]⟩
          simp [hne]
        calc tl.map (fun r => if r.id == i then f r else r)
            = tl.map id := List.map_congr_left hpt
          _ = tl := List.map_id tl
      simp only [List.map_cons, List.countP_cons, htail, hx, if_true]
      split_ifs <;> omega
    · have hxid : (x.id == i) = false := by simpa using hx
      simp only [List.map_cons, hxid, Bool.false_eq_true, if_false,
        List.countP_cons]
      have hih := ih hnd.2
      split_ifs <;> omega

/-- Folding the loop body over a batch preserves the id column and grows
any count by at most the batch length. -/
theorem foldl_processOne_bound (oracle : SendOracle) (t : Nat)
    (p : EmailRecord → Bool) :
    ∀ (pend : List EmailRecord) (db : DB),
      (db.records.map (fun r => r.id)).Nodup →
      (pend.foldl (processOne oracle t) db).records.countP p ≤
          db.records.countP p + pend.length ∧
      (pend.foldl (processOne oracle t) db).records.map (fun r => r.id) =
          db.records.map (fun r => r.id) := by
  intro pend
  induction pend with
  | nil =>
    intro db hnd
    exact ⟨by simp, rfl⟩
  | cons r rest ih =>
    intro db hnd
    simp only [List.foldl_cons, List.length_cons]
    obtain ⟨f, hf, hfid⟩ := processOne_update oracle t db r
    have hids : (processOne oracle t db r).records.map (fun q => q.id) =
        db.records.map (fun q => q.id) := by
      rw [hf]
      exact updateRecord_ids db r.id f hfid
    have hnd' : ((processOne oracle t db r).records.map (fun q => q.id)).Nodup := by
      rw [hids]; exact hnd
    obtain ⟨ihc, ihi⟩ := ih (processOne oracle t db r) hnd'
    have hone : (processOne oracle t db r).records.countP p ≤
        db.records.countP p + 1 := by
      rw [hf]
      exact countP_update_le p r.id f db.records hnd
    exact ⟨by omega, by rw [ihi, hids]⟩

/-! ## C3: the daily send cap -/

/-- C3: the dispatcher computes
`remaining = daily_send_limit - emailsSentToday`; when it is non-positive
the invocation is a pure no-op; otherwise it fetches at most `remaining`
due pending rows, and (with unique primary keys) one invocation
transitions at most `remaining` records to `sent`, keeping the daily sent
count at or below the configured cap. -/
theorem dispatcher_daily_cap (limit : Int) (oracle : SendOracle) (t : Nat)
    (db : DB) :
    (limit - (emailsSentToday db t : Int) ≤ 0 →
      process_pending_emails limit oracle t db = db) ∧
    (duePending db t (limit - (emailsSentToday db t : Int)).toNat).length ≤
      (limit - (emailsSentToday db t : Int)).toNat ∧
    ((db.records.map (fun r => r.id)).Nodup →
      (process_pending_emails limit oracle t db).records.countP
          (fun r => r.status == EmailStatus.sent) ≤
        db.records.countP (fun r => r.status == EmailStatus.sent) +
          (limit - (emailsSentToday db t : Int)).toNat) ∧
    ((db.records.map (fun r => r.id)).Nodup →
      (emailsSentToday db t : Int) ≤ limit →
      (emailsSentToday (process_pending_emails limit oracle t db) t : Int)
        ≤ limit) := by
  have hlen : (duePending db t (limit - (emailsSentToday db t : Int)).toNat).length ≤
      (limit - (emailsSentToday db t : Int)).toNat := by
    unfold duePending
    exact List.length_take_le _ _
  refine ⟨?_, hlen, ?_, ?_⟩
  · intro h
    unfold process_pending_emails
    rw [if_pos h]
  · intro hnd
    unfold process_pending_emails
    by_cases h : limit - (emailsSentToday db t : Int) ≤ 0
    · rw [if_pos h]
      omega
    · rw [if_neg h]
      have := (foldl_processOne_bound oracle t
        (fun r => r.status == EmailStatus.sent)
        (duePending db t (limit - (emailsSentToday db t : Int)).toNat) db hnd).1
      omega
  · intro hnd hcap
    unfold process_pending_emails
    by_cases h : limit - (emailsSentToday db t : Int) ≤ 0
    · rw [if_pos h]
      exact hcap
    · rw [if_neg h]
      have hb := (foldl_processOne_bound oracle t
        (fun r =>
          (match r.sent_at with
           | some s => decide (dayFloor t ≤ s)
           | none => false) &&
          (r.status == EmailStatus.sent || r.status == EmailStatus.replied))
        (duePending db t (limit - (emailsSentToday db t : Int)).toNat) db hnd).1
      unfold emailsSentToday at *
      omega

/-- C3 witness: limit 2, one due record in `dbC1`. -/
theorem dispatcher_daily_cap_witness :
    (process_pending_emails 2 oracleS 0 dbC1).records.countP
        (fun r => r.status == EmailStatus.sent) ≤
      dbC1.records.countP (fun r => r.status == EmailStatus.sent) +
        ((2 : Int) - (emailsSentToday dbC1 0 : Int)).toNat ∧
    (emailsSentToday (process_pending_emails 2 oracleS 0 dbC1) 0 : Int) ≤ 2 :=
  ⟨(dispatcher_daily_cap 2 oracleS 0 dbC1).2.2.1 (by decide),
   (dispatcher_daily_cap 2 oracleS 0 dbC1).2.2.2 (by decide) (by decide)⟩

end EmailModule
